import Mathlib

/-!
Verification of the task-manager API core (`src/app/api/tasks/route.ts` and
`src/types/task.ts`): the filtering logic of `GET /api/tasks`, and the
validation and creation logic of `POST /api/tasks`.

Modelling conventions for the shallow embedding of the TypeScript code:
* Runtime strings are Lean `String`s; the TypeScript enums `Priority` and
  `Category` are string-valued at runtime, so their value sets are modelled
  as the lists `priorityValues` and `categoryValues`.
* A field that may be `undefined` at runtime is an `Option`; JavaScript
  truthiness of a string-or-undefined value is `strTruthy` (both `undefined`
  and the empty string are falsy).
* `String.prototype.trim`, `String.prototype.toLowerCase` and
  `String.prototype.includes` are modelled by the executable functions
  `jsTrim`, `jsToLower` and `jsIncludes`.
* `new Date(s)` validity (`!isNaN(new Date(s).getTime())`) is
  implementation-defined in JavaScript beyond the ISO core, so it is passed
  to the validator as an oracle parameter `parseOk : String → Bool`.
* `Date.now()`, `Math.random().toString(36).substring(2, 9)` and the two
  separate `new Date().toISOString()` calls are nondeterministic; the
  handlers take them as explicit parameters (`nowMs : Nat`,
  `rand : String`, and the two ISO timestamps `createdAtIso` and
  `updatedAtIso` read during the request — one per clock call, so they
  agree only when both calls fall in the same millisecond).
-/

namespace TaskApi

/-- Whitespace recognised by JavaScript string trimming (the common ASCII
whitespace and line terminators). -/
def jsIsWhitespace (c : Char) : Bool :=
  c == ' ' || c == '\t' || c == '\n' || c == '\r' || c == '\x0b' || c == '\x0c'

/-- Model of JavaScript `String.prototype.trim`: drop leading and trailing
whitespace. -/
def jsTrim (s : String) : String :=
  String.mk (((s.toList.dropWhile jsIsWhitespace).reverse.dropWhile jsIsWhitespace).reverse)

/-- Model of JavaScript `String.prototype.toLowerCase` (ASCII letters). -/
def jsToLower (s : String) : String :=
  String.mk (s.toList.map fun c => if 'A' ≤ c && c ≤ 'Z' then Char.ofNat (c.toNat + 32) else c)

/-- Containment of `needle` as a contiguous sublist of `haystack`, by
checking a prefix match at every suffix. -/
def containsSub (needle : List Char) : List Char → Bool
  | [] => needle.isEmpty
  | c :: rest => needle.isPrefixOf (c :: rest) || containsSub needle rest

/-- Model of JavaScript `haystack.includes(needle)`: substring containment. -/
def jsIncludes (haystack needle : String) : Bool :=
  containsSub needle.toList haystack.toList

/-- JavaScript truthiness of a `string | undefined` value: `undefined` and
the empty string are falsy. -/
def strTruthy : Option String → Bool
  | none => false
  | some s => s != ""

/-- Runtime values of the TypeScript enum `Priority` (`src/types/task.ts`). -/
def priorityValues : List String := ["low", "medium", "high", "urgent"]

/-- Runtime values of the TypeScript enum `Category` (`src/types/task.ts`). -/
def categoryValues : List String := ["work", "personal", "shopping", "health", "learning"]

/-- The `Task` record of `src/types/task.ts`. `priority` and `category` are
the enums' runtime strings; optional fields are `Option`s. -/
structure Task where
  id : String
  title : String
  description : Option String
  completed : Bool
  priority : String
  category : String
  createdAt : String
  updatedAt : String
  dueDate : Option String
deriving DecidableEq, Repr

/-- The `CreateTaskRequest` body of `src/types/task.ts` as it arrives from
JSON: every field may be missing at runtime (the validator checks this), so
all fields are `Option`s. -/
structure CreateTaskRequest where
  title : Option String
  description : Option String
  priority : Option String
  category : Option String
  dueDate : Option String
deriving DecidableEq, Repr

/-- The `TaskFilters` record of `src/types/task.ts`. -/
structure TaskFilters where
  category : Option String
  priority : Option String
  completed : Option Bool
  search : Option String
deriving DecidableEq, Repr

/-- The predicate applied to each task by `applyFilters`
(`src/app/api/tasks/route.ts`, lines 114-139): the body of the arrow
function passed to `tasks.filter`, with JavaScript truthiness made
explicit. -/
def taskMatches (filters : TaskFilters) (task : Task) : Bool :=
  if (match filters.category with
      | some c => c != "" && task.category != c
      | none => false) then false
  else if (match filters.priority with
      | some p => p != "" && task.priority != p
      | none => false) then false
  else if (match filters.completed with
      | some b => task.completed != b
      | none => false) then false
  else match filters.search with
    | some s =>
      if s != "" then
        let searchLower := jsToLower s
        let titleMatch := jsIncludes (jsToLower task.title) searchLower
        let descriptionMatch := match task.description with
          | some d => jsIncludes (jsToLower d) searchLower
          | none => false
        titleMatch || descriptionMatch
      else true
    | none => true

/-- `applyFilters` (`src/app/api/tasks/route.ts`, lines 113-140). -/
def applyFilters (tasks : List Task) (filters : TaskFilters) : List Task :=
  tasks.filter (taskMatches filters)

example : strTruthy (some "x") = true := by decide
example : strTruthy (some "") = false := by decide
example : jsTrim "  ab c  " = "ab c" := by decide
example : jsToLower "AbC" = "abc" := by decide
example : jsIncludes "hello world" "lo wo" = true := by decide
example : jsIncludes "hello" "z" = false := by decide

/-- Title block of `validateTaskRequest` (`src/app/api/tasks/route.ts`,
lines 146-153): the messages it pushes onto `errors`. The chain is
`if (!body.title) ... else if (body.title.trim().length === 0) ...
else if (body.title.length > 200) ...`. -/
def titleErrors (body : CreateTaskRequest) : List String :=
  if !strTruthy body.title then ["Title is required"]
  else if (jsTrim (body.title.getD "")).length == 0 then ["Title cannot be empty"]
  else if (body.title.getD "").length > 200 then ["Title must be less than 200 characters"]
  else []

/-- Description block of `validateTaskRequest` (lines 155-158):
`if (body.description && body.description.length > 1000)`. -/
def descriptionErrors (body : CreateTaskRequest) : List String :=
  if strTruthy body.description && (body.description.getD "").length > 1000 then
    ["Description must be less than 1000 characters"]
  else []

/-- Priority block of `validateTaskRequest` (lines 160-165):
`if (!body.priority) ... else if (!Object.values(Priority).includes(body.priority)) ...`. -/
def priorityErrors (body : CreateTaskRequest) : List String :=
  if !strTruthy body.priority then ["Priority is required"]
  else if !(priorityValues.contains (body.priority.getD "")) then
    ["Priority must be one of: " ++ String.intercalate ", " priorityValues]
  else []

/-- Category block of `validateTaskRequest` (lines 167-172). -/
def categoryErrors (body : CreateTaskRequest) : List String :=
  if !strTruthy body.category then ["Category is required"]
  else if !(categoryValues.contains (body.category.getD "")) then
    ["Category must be one of: " ++ String.intercalate ", " categoryValues]
  else []

/-- Due-date block of `validateTaskRequest` (lines 174-181):
`if (body.dueDate) { const dueDate = new Date(body.dueDate);
if (isNaN(dueDate.getTime())) ... }`. The past-date check present in an
earlier variant was removed ("Remove past date check for prototyping
flexibility"); no current time enters this check. `parseOk` is the
JavaScript date-parse validity oracle. -/
def dueDateErrors (parseOk : String → Bool) (body : CreateTaskRequest) : List String :=
  if strTruthy body.dueDate then
    if !parseOk (body.dueDate.getD "") then ["Due date must be a valid ISO date string"]
    else []
  else []

/-- `validateTaskRequest` (`src/app/api/tasks/route.ts`, lines 143-184):
the error messages accumulated by the five blocks, in push order. -/
def validateTaskRequest (parseOk : String → Bool) (body : CreateTaskRequest) : List String :=
  titleErrors body ++ descriptionErrors body ++ priorityErrors body ++
    categoryErrors body ++ dueDateErrors parseOk body

/-- `generateId` (`src/app/api/tasks/route.ts`, lines 187-189):
`Date.now().toString() + Math.random().toString(36).substring(2, 9)`.
`nowMs` is the clock reading and `rand` the rendered random suffix, both
supplied by the environment. -/
def generateId (nowMs : Nat) (rand : String) : String :=
  toString nowMs ++ rand

/-- The `newTask` object built by `POST` (`src/app/api/tasks/route.ts`,
lines 73-83). The source reads the clock twice — `createdAt: new
Date().toISOString()` on line 80 and `updatedAt: new Date().toISOString()`
on line 81 — so the two readings arrive as the separate parameters
`createdAtIso` and `updatedAtIso`; they agree only when both calls fall in
the same millisecond. `body.description?.trim() || undefined` maps a
whitespace-only or missing description to `undefined`;
`body.dueDate || undefined` maps an empty-string due date to `undefined`.
Only called after validation has passed, so `title` is a non-empty
string. -/
def createTask (taskId createdAtIso updatedAtIso : String) (body : CreateTaskRequest) : Task :=
  { id := taskId
  , title := jsTrim (body.title.getD "")
  , description :=
      match body.description with
      | some d => if jsTrim d == "" then none else some (jsTrim d)
      | none => none
  , completed := false
  , priority := body.priority.getD ""
  , category := body.category.getD ""
  , createdAt := createdAtIso
  , updatedAt := updatedAtIso
  , dueDate :=
      match body.dueDate with
      | some d => if d == "" then none else some d
      | none => none }

/-- The `ApiResponse<T>` wrapper of `src/types/task.ts`. -/
structure ApiResponse (α : Type) where
  data : α
  success : Bool
  message : Option String
  error : Option String
deriving DecidableEq, Repr

/-- Outcome of one `POST /api/tasks` request: HTTP status, JSON body, and
the task store after the request. -/
structure PostResult where
  status : Nat
  response : ApiResponse (Option Task)
  store : List Task
deriving DecidableEq, Repr

/-- The `POST` handler (`src/app/api/tasks/route.ts`, lines 54-110) on a
successfully parsed body: validate; on failure answer 400 with the joined
errors and leave `runtimeTasks` unchanged; on success build `newTask`,
push it onto `runtimeTasks`, and answer 201 with the task. -/
def POST (parseOk : String → Bool) (nowMs : Nat) (rand : String)
    (createdAtIso updatedAtIso : String)
    (body : CreateTaskRequest) (store : List Task) : PostResult :=
  let validationErrors := validateTaskRequest parseOk body
  if validationErrors.length > 0 then
    { status := 400
    , response :=
        { data := none
        , success := false
        , message := none
        , error := some ("Validation failed: " ++ String.intercalate ", " validationErrors) }
    , store := store }
  else
    let newTask := createTask (generateId nowMs rand) createdAtIso updatedAtIso body
    { status := 201
    , response :=
        { data := some newTask
        , success := true
        , message := some "Task created successfully (stored in memory - persists until server restart)"
        , error := none }
    , store := store ++ [newTask] }

/-- Parsing of the `completed` query parameter by `GET`
(`src/app/api/tasks/route.ts`, lines 19-20):
`get('completed') === 'true' ? true : get('completed') === 'false' ? false
: undefined`. The argument is the raw `searchParams.get` result
(`none` models `null`). -/
def parseCompletedParam (q : Option String) : Option Bool :=
  if q == some "true" then some true
  else if q == some "false" then some false
  else none

/-- The `TaskFilters` object built by `GET` from the query parameters
(`src/app/api/tasks/route.ts`, lines 16-22): each string parameter is
coalesced to `undefined` when falsy (`x || undefined`). -/
def buildFilters (qcat qprio qcompl qsearch : Option String) : TaskFilters :=
  { category := if strTruthy qcat then qcat else none
  , priority := if strTruthy qprio then qprio else none
  , completed := parseCompletedParam qcompl
  , search := if strTruthy qsearch then qsearch else none }

/-- The `data` payload of the `GET` handler (`src/app/api/tasks/route.ts`,
lines 10-51): the store filtered by the query-parameter filters. -/
def GET (qcat qprio qcompl qsearch : Option String) (store : List Task) : List Task :=
  applyFilters store (buildFilters qcat qprio qcompl qsearch)

/-- The spec's description of filtering, written as one conjunction of four
independent admission conditions: exact category match, exact priority
match, exact completed match, case-insensitive substring search over title
or description; an absent filter admits all. Used to compare `applyFilters`
against the specification (claim C1). -/
def specMatches (f : TaskFilters) (t : Task) : Bool :=
  (match f.category with | some c => t.category == c | none => true) &&
  (match f.priority with | some p => t.priority == p | none => true) &&
  (match f.completed with | some b => t.completed == b | none => true) &&
  (match f.search with
    | some s => jsIncludes (jsToLower t.title) (jsToLower s) ||
        (match t.description with
         | some d => jsIncludes (jsToLower d) (jsToLower s)
         | none => false)
    | none => true)

lemma containsSub_nil (l : List Char) : containsSub [] l = true := by
  cases l <;> simp [containsSub, List.isPrefixOf, List.isEmpty]

lemma jsIncludes_empty (h : String) : jsIncludes h "" = true := by
  simpa [jsIncludes] using containsSub_nil h.toList

lemma mem_categoryValues_ne_empty {c : String} (h : c ∈ categoryValues) : c ≠ "" := by
  simp only [categoryValues, List.mem_cons, List.not_mem_nil, or_false] at h
  rcases h with rfl | rfl | rfl | rfl | rfl <;> decide

lemma mem_priorityValues_ne_empty {p : String} (h : p ∈ priorityValues) : p ≠ "" := by
  simp only [priorityValues, List.mem_cons, List.not_mem_nil, or_false] at h
  rcases h with rfl | rfl | rfl | rfl <;> decide

lemma jsToLower_empty : jsToLower "" = "" := rfl

lemma decide_eq_beq_str (a b : String) : decide (a = b) = (a == b) := by
  by_cases h : a = b <;> simp [h]

lemma decide_eq_beq_bool (a b : Bool) : decide (a = b) = (a == b) := by
  cases a <;> cases b <;> decide

lemma taskMatches_eq_specMatches (f : TaskFilters) (t : Task)
    (hc : ∀ c, f.category = some c → c ≠ "")
    (hp : ∀ p, f.priority = some p → p ≠ "") :
    taskMatches f t = specMatches f t := by
  rcases f with ⟨fc, fp, fco, fs⟩
  rcases fc with _ | c <;> rcases fp with _ | p <;> rcases fco with _ | b <;>
    rcases fs with _ | s <;> rcases hd : t.description with _ | d <;>
    simp only [taskMatches, specMatches] <;>
    (try by_cases h1 : t.category = c) <;>
    (try by_cases h2 : t.priority = p) <;>
    (try by_cases h3 : t.completed = b) <;>
    (try by_cases hs : s = "") <;>
    (try subst hs) <;>
    simp_all [decide_eq_beq_str, decide_eq_beq_bool, jsIncludes_empty, jsToLower_empty]

/-- C1: for every list of tasks and every filter specification (a
`TaskFilters` value whose category and priority, when present, are drawn
from the closed enumerations), `applyFilters` returns exactly the tasks
satisfying the logical AND of the four admission conditions (exact category
match, exact priority match, exact completed match, case-insensitive
substring search over title or description; an absent filter admits all),
and the output is a sublist of the input, so the input's iteration order is
preserved with no re-sorting. -/
theorem c1_applyFilters_is_and_of_filters_order_preserving
    (tasks : List Task) (f : TaskFilters)
    (hc : ∀ c, f.category = some c → c ∈ categoryValues)
    (hp : ∀ p, f.priority = some p → p ∈ priorityValues) :
    applyFilters tasks f = tasks.filter (specMatches f) ∧
    (applyFilters tasks f).Sublist tasks := by
  refine ⟨?_, List.filter_sublist tasks⟩
  unfold applyFilters
  refine List.filter_congr ?_
  intro t _
  exact taskMatches_eq_specMatches f t
    (fun c h => mem_categoryValues_ne_empty (hc c h))
    (fun p h => mem_priorityValues_ne_empty (hp p h))

/-- A sample stored task used to instantiate the universally quantified
theorems at concrete inputs. -/
def sampleTask : Task :=
  { id := "1"
  , title := "Buy milk"
  , description := some "From the corner store"
  , completed := false
  , priority := "high"
  , category := "shopping"
  , createdAt := "2024-01-01T00:00:00Z"
  , updatedAt := "2024-01-01T00:00:00Z"
  , dueDate := none }

/-- Witness for C1 at a concrete store and filter. -/
theorem c1_witness :
    applyFilters [sampleTask] ⟨some "shopping", none, none, none⟩ =
      [sampleTask].filter (specMatches ⟨some "shopping", none, none, none⟩) ∧
    (applyFilters [sampleTask] ⟨some "shopping", none, none, none⟩).Sublist [sampleTask] :=
  c1_applyFilters_is_and_of_filters_order_preserving [sampleTask]
    ⟨some "shopping", none, none, none⟩
    (fun c h => by injection h with h; subst h; decide)
    (fun p h => by injection h)

lemma filter_idem {α : Type} (p : α → Bool) (l : List α) :
    (l.filter p).filter p = l.filter p := by
  induction l with
  | nil => rfl
  | cons a l ih =>
    by_cases h : p a = true
    · simp [List.filter_cons, h, ih]
    · simp [List.filter_cons, h, ih]

lemma applyFilters_no_filters (tasks : List Task) :
    applyFilters tasks ⟨none, none, none, none⟩ = tasks := by
  unfold applyFilters
  exact List.filter_eq_self.mpr (fun a _ => rfl)

/-- C7: for every list of tasks and every category value `c`, filtering by
category `c` returns only tasks whose category equals `c`, and the filter
is idempotent: applying the same category filter to the already-filtered
result returns the same list. -/
theorem c7_category_filter_sound_and_idempotent (tasks : List Task) (c : String)
    (hc : c ∈ categoryValues) :
    (∀ t ∈ applyFilters tasks ⟨some c, none, none, none⟩, t.category = c) ∧
    applyFilters (applyFilters tasks ⟨some c, none, none, none⟩) ⟨some c, none, none, none⟩ =
      applyFilters tasks ⟨some c, none, none, none⟩ := by
  have hcne := mem_categoryValues_ne_empty hc
  have hpred : ∀ t : Task, taskMatches ⟨some c, none, none, none⟩ t = (t.category == c) := by
    intro t
    simp only [taskMatches]
    by_cases h : t.category = c <;> simp [h, hcne]
  constructor
  · intro t ht
    have hmem := List.of_mem_filter ht
    rw [hpred] at hmem
    exact eq_of_beq hmem
  · exact filter_idem _ tasks

/-- Witness for C7: the concrete idempotence instance at the sample store. -/
theorem c7_witness :
    applyFilters (applyFilters [sampleTask] ⟨some "shopping", none, none, none⟩)
        ⟨some "shopping", none, none, none⟩ =
      applyFilters [sampleTask] ⟨some "shopping", none, none, none⟩ :=
  (c7_category_filter_sound_and_idempotent [sampleTask] "shopping" (by decide)).2

/-- C6: for every task whose description is absent and every non-empty
search string, the search filter matches the task exactly when the
lowercased title contains the lowercased search string; it never matches
via the absent description (the absent description contributes `false` to
the disjunction), and the filtering function is total, so no error can be
raised. -/
theorem c6_search_absent_description_matches_title_only (t : Task) (s : String)
    (hd : t.description = none) (hs : s ≠ "") :
    (t ∈ applyFilters [t] ⟨none, none, none, some s⟩ ↔
      jsIncludes (jsToLower t.title) (jsToLower s) = true) ∧
    applyFilters [t] ⟨none, none, none, some s⟩ =
      if jsIncludes (jsToLower t.title) (jsToLower s) then [t] else [] := by
  have hm : taskMatches ⟨none, none, none, some s⟩ t =
      jsIncludes (jsToLower t.title) (jsToLower s) := by
    simp only [taskMatches]
    simp [hs, hd]
  constructor
  · simp [applyFilters, List.mem_filter, hm]
  · simp [applyFilters, List.filter_cons, hm]

/-- A sample task with no description, for the C6 witness. -/
def noDescTask : Task :=
  { id := "2"
  , title := "Buy milk"
  , description := none
  , completed := false
  , priority := "low"
  , category := "shopping"
  , createdAt := "2024-01-01T00:00:00Z"
  , updatedAt := "2024-01-01T00:00:00Z"
  , dueDate := none }

/-- Witness for C6 at a concrete task and search string. -/
theorem c6_witness :
    applyFilters [noDescTask] ⟨none, none, none, some "MILK"⟩ =
      if jsIncludes (jsToLower noDescTask.title) (jsToLower "MILK") then [noDescTask] else [] :=
  (c6_search_absent_description_matches_title_only noDescTask "MILK" rfl (by decide)).2

/-- C9: a `completed` query parameter whose value is any string other than
exactly "true" or exactly "false" yields an absent completed filter, so the
request behaves exactly as if the parameter were missing; in particular,
with no other filters it admits all tasks. -/
theorem c9_nonboolean_completed_param_admits_all (s : String)
    (h1 : s ≠ "true") (h2 : s ≠ "false") :
    parseCompletedParam (some s) = none ∧
    (∀ qcat qprio qsearch store,
      GET qcat qprio (some s) qsearch store = GET qcat qprio none qsearch store) ∧
    (∀ store : List Task, GET none none (some s) none store = store) := by
  have hparse : parseCompletedParam (some s) = none := by
    simp [parseCompletedParam, h1, h2]
  refine ⟨hparse, ?_, ?_⟩
  · intro qcat qprio qsearch store
    simp [GET, buildFilters, hparse, parseCompletedParam, h1, h2]
  · intro store
    have : buildFilters none none (some s) none = ⟨none, none, none, none⟩ := by
      simp [buildFilters, hparse, strTruthy]
    rw [GET, this]
    exact applyFilters_no_filters store

/-- Witness for C9 at the concrete parameter values "TRUE", "1" and "". -/
theorem c9_witness :
    GET none none (some "TRUE") none [sampleTask] = [sampleTask] ∧
    GET none none (some "1") none [sampleTask] = [sampleTask] ∧
    GET none none (some "") none [sampleTask] = [sampleTask] :=
  ⟨(c9_nonboolean_completed_param_admits_all "TRUE" (by decide) (by decide)).2.2 [sampleTask],
   (c9_nonboolean_completed_param_admits_all "1" (by decide) (by decide)).2.2 [sampleTask],
   (c9_nonboolean_completed_param_admits_all "" (by decide) (by decide)).2.2 [sampleTask]⟩

/-- Title used in the C2 counterexample: 200 letters followed by one
trailing space, so the trimmed length is 200 but the raw length is 201. -/
def c2Title : String := String.mk (List.replicate 200 'a' ++ [' '])

/-- Creation request carrying `c2Title`; every other field is valid. -/
def c2Body : CreateTaskRequest :=
  { title := some c2Title, description := none, priority := some "low"
  , category := some "work", dueDate := none }

/-- C2 counterexample: `c2Body.title` is present, trims to a non-empty
string of length 200 — within the claimed trimmed-length limit — yet title
validation rejects the request, because the code compares the untrimmed
length against 200 (`body.title.length > 200`). -/
lemma string_length_zero_iff (s : String) : s.length = 0 ↔ s = "" := by
  constructor
  · intro h
    cases s with
    | mk data =>
      cases data with
      | nil => decide
      | cons c cs => simp [String.length] at h
  · intro h
    subst h
    decide

set_option maxRecDepth 8000 in
theorem c2_counterexample :
    c2Body.title.isSome = true ∧
    (jsTrim (c2Body.title.getD "")).length = 200 ∧
    jsTrim (c2Body.title.getD "") ≠ "" ∧
    titleErrors c2Body = ["Title must be less than 200 characters"] ∧
    validateTaskRequest (fun _ => true) c2Body ≠ [] := by
  decide

/-- C2 (amended): title validation accepts exactly when the title is
provided and non-falsy, non-empty after trimming, and its untrimmed length
is at most 200 characters. The three checks are layered, so the first
violated condition contributes its error message: "Title is required" when
the title is absent or the empty string, "Title cannot be empty" when it
trims to nothing, and "Title must be less than 200 characters" when the
untrimmed length exceeds 200. Every title error is reported by
`validateTaskRequest`. -/
theorem c2_amended_title_validation (body : CreateTaskRequest) :
    (titleErrors body = [] ↔
      (strTruthy body.title = true ∧ jsTrim (body.title.getD "") ≠ "" ∧
        (body.title.getD "").length ≤ 200)) ∧
    (strTruthy body.title = false → titleErrors body = ["Title is required"]) ∧
    (strTruthy body.title = true → jsTrim (body.title.getD "") = "" →
      titleErrors body = ["Title cannot be empty"]) ∧
    (strTruthy body.title = true → jsTrim (body.title.getD "") ≠ "" →
      (body.title.getD "").length > 200 →
      titleErrors body = ["Title must be less than 200 characters"]) ∧
    (∀ parseOk, ∀ e ∈ titleErrors body, e ∈ validateTaskRequest parseOk body) := by
  refine ⟨?_, ?_, ?_, ?_, ?_⟩
  · by_cases h1 : strTruthy body.title
    · by_cases h2 : jsTrim (body.title.getD "") = ""
      · simp [titleErrors, h1, h2]
      · by_cases h3 : (body.title.getD "").length ≤ 200
        · have h4 : ¬ (body.title.getD "").length > 200 := by omega
          simp [titleErrors, h1, h2, h3, h4, string_length_zero_iff]
        · have h4 : (body.title.getD "").length > 200 := by omega
          simp [titleErrors, h1, h2, h3, h4, string_length_zero_iff]
    · simp [titleErrors, h1]
  · intro h; simp [titleErrors, h]
  · intro h1 h2; simp [titleErrors, h1, h2]
  · intro h1 h2 h3
    simp [titleErrors, h1, h2, h3, string_length_zero_iff]
  · intro parseOk e he
    simp only [validateTaskRequest, List.mem_append]
    exact Or.inl (Or.inl (Or.inl (Or.inl he)))

/-- Creation request with no title at all, for the C2 witness. -/
def noTitleBody : CreateTaskRequest :=
  { title := none, description := none, priority := some "low"
  , category := some "work", dueDate := none }

/-- Witness for the amended C2 at a concrete request without a title. -/
theorem c2_witness : titleErrors noTitleBody = ["Title is required"] :=
  (c2_amended_title_validation noTitleBody).2.1 rfl

/-- C3: when validation produces at least one error message, `POST`
answers a single error response with HTTP status 400 whose error text
aggregates all violated rules joined into one message, and the task store
is left unchanged — no task is appended. -/
theorem c3_validation_failure_aggregated_400_store_unchanged
    (parseOk : String → Bool) (nowMs : Nat) (rand createdAtIso updatedAtIso : String)
    (body : CreateTaskRequest) (store : List Task)
    (h : validateTaskRequest parseOk body ≠ []) :
    (POST parseOk nowMs rand createdAtIso updatedAtIso body store).status = 400 ∧
    (POST parseOk nowMs rand createdAtIso updatedAtIso body store).response.success = false ∧
    (POST parseOk nowMs rand createdAtIso updatedAtIso body store).response.data = none ∧
    (POST parseOk nowMs rand createdAtIso updatedAtIso body store).response.error =
      some ("Validation failed: " ++
        String.intercalate ", " (validateTaskRequest parseOk body)) ∧
    (POST parseOk nowMs rand createdAtIso updatedAtIso body store).store = store := by
  have hpos : (validateTaskRequest parseOk body).length > 0 := List.length_pos.mpr h
  simp [POST, hpos]

/-- Creation request with every field missing, for the C3 witness. -/
def emptyBody : CreateTaskRequest := ⟨none, none, none, none, none⟩

/-- Witness for C3 at a concrete invalid request. -/
theorem c3_witness :
    (POST (fun _ => true) 0 "abcdefg" "t0" "t0" emptyBody [sampleTask]).status = 400 ∧
    (POST (fun _ => true) 0 "abcdefg" "t0" "t0" emptyBody [sampleTask]).store = [sampleTask] :=
  ⟨(c3_validation_failure_aggregated_400_store_unchanged (fun _ => true) 0 "abcdefg" "t0" "t0"
      emptyBody [sampleTask] (by decide)).1,
   (c3_validation_failure_aggregated_400_store_unchanged (fun _ => true) 0 "abcdefg" "t0" "t0"
      emptyBody [sampleTask] (by decide)).2.2.2.2⟩

/-- Valid creation request whose due date is the empty string, for the C4
counterexample. -/
def c4EmptyDueBody : CreateTaskRequest :=
  { title := some "x", description := none, priority := some "low"
  , category := some "work", dueDate := some "" }

/-- C4 counterexample, on two counts. A request whose `dueDate` is present
but the empty string passes validation (the falsy value makes
`if (body.dueDate)` skip the parse check; the oracle rejects "", as
JavaScript's `new Date("")` is an Invalid Date), yet the created task's
due date is absent rather than copied verbatim, because of
`body.dueDate || undefined`. And since the source reads the clock once for
`createdAt` and again for `updatedAt`, a run whose two readings differ
produces `createdAt ≠ updatedAt`. -/
theorem c4_counterexample :
    validateTaskRequest (fun s => s != "") c4EmptyDueBody = [] ∧
    c4EmptyDueBody.dueDate = some "" ∧
    (createTask "id0" "t1" "t1" c4EmptyDueBody).dueDate = none ∧
    (createTask "id0" "t1" "t2" c4EmptyDueBody).createdAt ≠
      (createTask "id0" "t1" "t2" c4EmptyDueBody).updatedAt := by
  decide

/-- C4 (amended): a creation request that passes validation yields a 201
response whose task has the trimmed title, trimmed-or-absent description,
`completed = false`, priority and category copied verbatim, `createdAt`
and `updatedAt` set to the two clock readings taken during the request —
equal exactly when those readings agree — the due date copied verbatim
when provided and non-empty while a provided empty-string due date becomes
absent, and the new task appended to the end of the store and returned in
the response. -/
theorem c4_amended_creation_fields_and_append
    (parseOk : String → Bool) (nowMs : Nat) (rand createdAtIso updatedAtIso : String)
    (body : CreateTaskRequest) (store : List Task)
    (hv : validateTaskRequest parseOk body = []) :
    (POST parseOk nowMs rand createdAtIso updatedAtIso body store).store =
      store ++ [createTask (generateId nowMs rand) createdAtIso updatedAtIso body] ∧
    (POST parseOk nowMs rand createdAtIso updatedAtIso body store).status = 201 ∧
    (POST parseOk nowMs rand createdAtIso updatedAtIso body store).response.data =
      some (createTask (generateId nowMs rand) createdAtIso updatedAtIso body) ∧
    (∀ s, body.title = some s →
      (createTask (generateId nowMs rand) createdAtIso updatedAtIso body).title = jsTrim s) ∧
    (createTask (generateId nowMs rand) createdAtIso updatedAtIso body).completed = false ∧
    (∀ p, body.priority = some p →
      (createTask (generateId nowMs rand) createdAtIso updatedAtIso body).priority = p) ∧
    (∀ c, body.category = some c →
      (createTask (generateId nowMs rand) createdAtIso updatedAtIso body).category = c) ∧
    (createTask (generateId nowMs rand) createdAtIso updatedAtIso body).createdAt =
      createdAtIso ∧
    (createTask (generateId nowMs rand) createdAtIso updatedAtIso body).updatedAt =
      updatedAtIso ∧
    (createdAtIso = updatedAtIso →
      (createTask (generateId nowMs rand) createdAtIso updatedAtIso body).createdAt =
        (createTask (generateId nowMs rand) createdAtIso updatedAtIso body).updatedAt) ∧
    (body.description = none →
      (createTask (generateId nowMs rand) createdAtIso updatedAtIso body).description = none) ∧
    (∀ d, body.description = some d →
      (createTask (generateId nowMs rand) createdAtIso updatedAtIso body).description =
        if jsTrim d = "" then none else some (jsTrim d)) ∧
    (∀ d, body.dueDate = some d → d ≠ "" →
      (createTask (generateId nowMs rand) createdAtIso updatedAtIso body).dueDate = some d) ∧
    (body.dueDate = some "" →
      (createTask (generateId nowMs rand) createdAtIso updatedAtIso body).dueDate = none) ∧
    (body.dueDate = none →
      (createTask (generateId nowMs rand) createdAtIso updatedAtIso body).dueDate = none) := by
  refine ⟨?_, ?_, ?_, ?_, rfl, ?_, ?_, rfl, rfl, ?_, ?_, ?_, ?_, ?_, ?_⟩
  · simp [POST, hv]
  · simp [POST, hv]
  · simp [POST, hv]
  · intro s hs; simp [createTask, hs]
  · intro p hp; simp [createTask, hp]
  · intro c hc; simp [createTask, hc]
  · intro h; simp [createTask, h]
  · intro h; simp [createTask, h]
  · intro d hd
    by_cases h : jsTrim d = "" <;> simp [createTask, hd, h]
  · intro d hd hne; simp [createTask, hd, hne]
  · intro h; simp [createTask, h]
  · intro h; simp [createTask, h]

/-- A fully valid creation request, for the C4 witness. -/
def validBody : CreateTaskRequest :=
  { title := some "  Plan trip  ", description := some "   "
  , priority := some "low", category := some "work"
  , dueDate := some "2024-06-01T00:00:00Z" }

/-- Witness for the amended C4 at a concrete valid request and store. -/
theorem c4_witness :
    (POST (fun _ => true) 5 "abcdefg" "t1" "t1" validBody [sampleTask]).store =
      [sampleTask] ++ [createTask (generateId 5 "abcdefg") "t1" "t1" validBody] :=
  (c4_amended_creation_fields_and_append (fun _ => true) 5 "abcdefg" "t1" "t1" validBody
    [sampleTask] (by decide)).1

/-- A stored task whose id is the very string `generateId 0 "abc"`
produces, for the C5 counterexample. -/
def c5Existing : Task :=
  { id := "0abc", title := "x", description := none, completed := false
  , priority := "low", category := "work", createdAt := "t0", updatedAt := "t0"
  , dueDate := none }

/-- A valid creation request, for the C5 theorems. -/
def c5Body : CreateTaskRequest :=
  { title := some "y", description := none, priority := some "low"
  , category := some "work", dueDate := none }

/-- C5 counterexample: with clock reading 0 and random suffix "abc" the
generated id "0abc" collides with an already-stored task's id; the
creation still succeeds (status 201) and the store's ids are no longer
pairwise distinct, because `generateId` never consults the store. -/
theorem c5_counterexample :
    validateTaskRequest (fun _ => true) c5Body = [] ∧
    (POST (fun _ => true) 0 "abc" "t1" "t1" c5Body [c5Existing]).status = 201 ∧
    (POST (fun _ => true) 0 "abc" "t1" "t1" c5Body [c5Existing]).store.map Task.id =
      ["0abc", "0abc"] ∧
    ¬ ((POST (fun _ => true) 0 "abc" "t1" "t1" c5Body [c5Existing]).store.map Task.id).Nodup := by
  decide

/-- C5 (amended): a creation preserves the store's id-uniqueness invariant
provided the freshly generated id (clock string concatenated with the
random suffix) does not already occur among the stored ids; the code
performs no uniqueness check of its own, so distinctness of the generated
ids is an assumption on the id source, not an enforced invariant. -/
theorem c5_amended_creation_preserves_id_uniqueness
    (parseOk : String → Bool) (nowMs : Nat) (rand createdAtIso updatedAtIso : String)
    (body : CreateTaskRequest) (store : List Task)
    (hfresh : generateId nowMs rand ∉ store.map Task.id)
    (hnodup : (store.map Task.id).Nodup) :
    ((POST parseOk nowMs rand createdAtIso updatedAtIso body store).store.map Task.id).Nodup := by
  by_cases hv : (validateTaskRequest parseOk body).length > 0
  · simpa [POST, hv] using hnodup
  · have hid : (createTask (generateId nowMs rand) createdAtIso updatedAtIso body).id =
        generateId nowMs rand := rfl
    simp [POST, hv, List.nodup_append, hnodup, hid]
    intro x hx hxid
    exact hfresh (hxid ▸ List.mem_map_of_mem Task.id hx)

/-- Witness for the amended C5: a fresh id keeps the stored ids distinct. -/
theorem c5_witness :
    ((POST (fun _ => true) 1 "abc" "t1" "t1" c5Body [c5Existing]).store.map Task.id).Nodup :=
  c5_amended_creation_preserves_id_uniqueness (fun _ => true) 1 "abc" "t1" "t1" c5Body
    [c5Existing] (by decide) (by decide)

/-- Valid creation request whose due date is the empty string, for the C8
counterexample. -/
def c8EmptyDueBody : CreateTaskRequest :=
  { title := some "y", description := none, priority := some "medium"
  , category := some "personal", dueDate := some "" }

/-- C8 counterexample: with an oracle that rejects the empty string (as
JavaScript's `new Date("")` is an Invalid Date), a request whose due date
is present but empty produces no due-date error at all — the falsy value
makes `if (body.dueDate)` skip the parse check — and the whole request
passes validation, refuting "an error exactly when the value does not
parse" for present values. -/
theorem c8_counterexample :
    c8EmptyDueBody.dueDate = some "" ∧
    (fun s => s != "") "" = false ∧
    dueDateErrors (fun s => s != "") c8EmptyDueBody = [] ∧
    validateTaskRequest (fun s => s != "") c8EmptyDueBody = [] := by
  decide

/-- C8 (amended): due-date validation succeeds when no due date is
provided; a provided empty-string due date is falsy, so it is silently
treated as absent and never checked against the parser; when a non-empty
due date is provided, validation produces exactly the invalid-date error
precisely when the value does not parse as a valid date. The check
consults no current time — the past-date rejection of the historical
variant is absent — so every value the date parser accepts, past or
future, passes validation. -/
theorem c8_amended_dueDate_validation (parseOk : String → Bool) (body : CreateTaskRequest) :
    (body.dueDate = none → dueDateErrors parseOk body = []) ∧
    (body.dueDate = some "" → dueDateErrors parseOk body = []) ∧
    (∀ d, body.dueDate = some d → d ≠ "" → parseOk d = true →
      dueDateErrors parseOk body = []) ∧
    (∀ d, body.dueDate = some d → d ≠ "" → parseOk d = false →
      dueDateErrors parseOk body = ["Due date must be a valid ISO date string"]) := by
  refine ⟨?_, ?_, ?_, ?_⟩
  · intro h; simp [dueDateErrors, h, strTruthy]
  · intro h; simp [dueDateErrors, h, strTruthy]
  · intro d hd hne hok; simp [dueDateErrors, hd, strTruthy, hne, hok]
  · intro d hd hne hbad; simp [dueDateErrors, hd, strTruthy, hne, hbad]

/-- Request carrying a syntactically valid but past due date, for the C8
witness: the oracle accepts exactly that past date and validation passes. -/
def pastDueBody : CreateTaskRequest :=
  { title := some "x", description := none, priority := some "low"
  , category := some "work", dueDate := some "2020-01-01T00:00:00Z" }

/-- Witness for the amended C8: a past due date accepted by the parser is
accepted by validation. -/
theorem c8_witness :
    dueDateErrors (fun s => s == "2020-01-01T00:00:00Z") pastDueBody = [] :=
  (c8_amended_dueDate_validation (fun s => s == "2020-01-01T00:00:00Z") pastDueBody).2.2.1
    "2020-01-01T00:00:00Z" rfl (by decide) (by decide)

/-- C10: when a creation request passes validation and its description is
provided but is empty or consists only of whitespace, the created task's
description field is absent (`none`), not the empty string. -/
theorem c10_blank_description_becomes_absent
    (parseOk : String → Bool) (taskId createdAtIso updatedAtIso : String)
    (body : CreateTaskRequest) (d : String) (hv : validateTaskRequest parseOk body = [])
    (hd : body.description = some d) (hblank : jsTrim d = "") :
    (createTask taskId createdAtIso updatedAtIso body).description = none := by
  simp [createTask, hd, hblank]

/-- Request whose description is three spaces, for the C10 witness. -/
def blankDescBody : CreateTaskRequest :=
  { title := some "x", description := some "   ", priority := some "low"
  , category := some "work", dueDate := none }

/-- Witness for C10 at a concrete whitespace-only description. -/
theorem c10_witness : (createTask "id1" "t1" "t1" blankDescBody).description = none :=
  c10_blank_description_becomes_absent (fun _ => true) "id1" "t1" "t1" blankDescBody "   "
    (by decide) rfl (by decide)

end TaskApi
